import Mathlib

/-!
Verification of the premarket scanner core (src/thetagang/premarket_scanner.py).

Shallow embedding conventions:
* Python floats are modelled as rationals (ℚ).  A price attribute that may be
  absent (guarded by `hasattr` in the source) or NaN (guarded by `pd.isna`)
  is modelled as `Option ℚ`, with `none` for the absent/NaN case.
* The broker collaborators (`qualify_contracts`, `get_ticker_for_contract`)
  are modelled by their observable results: a `Bool` saying whether the
  contract qualified, and an `Option Ticker` for the fetched market data.
* The window gate `is_premarket_hours` depends on wall-clock time and the
  exchange calendar; each evaluation of it during `scan_all_symbols` is
  modelled as an independent `Bool` input (the gate is evaluated three times
  in the source: lines 184, 216 and 253).
* `asyncio.gather(*tasks, return_exceptions=True)` yields one terminal value
  per task: either a captured exception or the task's returned
  `Optional[Dict]`.  This is the `TaskResult` type below.
* Python dicts preserve insertion order; `config.symbols` and
  `self.scan_results` are modelled as association lists in that order.
* The wall-clock `timestamp` field of a scan result (line 168) is not
  modelled; it plays no role in any claim.
-/

namespace PremarketScanner

/-- Recommended action attached to an opportunity: the string "PUT" or "CALL"
in the source (lines 148 and 158). -/
inductive Action where
  | PUT : Action
  | CALL : Action
deriving DecidableEq, Repr

/-- Modelled from the spec: the per-symbol configuration object
`thetagang.config.Config` is not part of the scanned sources; this structure
carries exactly the fields the scanner reads (`puts.write_when.red`,
`calls.write_when.green`, lines 142-155), with `Option` at the two levels the
source tests with `is None`.  The spec describes the lookup as per-symbol
`allowRedOpportunity`/`allowGreenOpportunity` flags defaulting to true when
unset. -/
structure PutsWriteWhen where
  red : Bool
deriving DecidableEq, Repr

/-- Counterpart of `PutsWriteWhen` for the call side (line 155). -/
structure CallsWriteWhen where
  green : Bool
deriving DecidableEq, Repr

/-- Configuration subtree `symbol_config.puts` (may be absent, line 143). -/
structure PutsConfig where
  write_when : Option PutsWriteWhen
deriving DecidableEq, Repr

/-- Configuration subtree `symbol_config.calls` (may be absent, line 153). -/
structure CallsConfig where
  write_when : Option CallsWriteWhen
deriving DecidableEq, Repr

/-- Per-symbol configuration as read by the scanner. -/
structure SymbolConfig where
  puts : Option PutsConfig
  calls : Option CallsConfig
deriving DecidableEq, Repr

/-- Ticker data returned by the market-data collaborator
(`get_ticker_for_contract`).  `marketPrice` is `none` when the ticker object
has no `marketPrice` attribute (line 121); `close` is `none` when the `close`
attribute is missing or NaN (line 122); `volume` is `none` when the attribute
is missing (line 130, `getattr` default 0). -/
structure Ticker where
  marketPrice : Option ℚ
  close : Option ℚ
  volume : Option Int
deriving DecidableEq, Repr

/-- Per-symbol scan result dict built at lines 160-169 of the source. -/
structure ScanResult where
  symbol : String
  current_price : ℚ
  close_price : ℚ
  price_change_pct : ℚ
  volume : Int
  has_opportunity : Bool
  recommended_action : Option Action
deriving DecidableEq, Repr

/-- Direction gate for the down move, lines 142-146 of the source:
`symbol_config.puts is None or symbol_config.puts.write_when is None or
symbol_config.puts.write_when.red is True`. -/
def allow_red (c : SymbolConfig) : Bool :=
  match c.puts with
  | none => true
  | some p =>
    match p.write_when with
    | none => true
    | some w => w.red

/-- Direction gate for the up move, lines 152-156 of the source. -/
def allow_green (c : SymbolConfig) : Bool :=
  match c.calls with
  | none => true
  | some cc =>
    match cc.write_when with
    | none => true
    | some w => w.green

/-- Percent-change computation, lines 125-127 of the source:
initialised to 0.0 and overwritten by the ratio only when `close_price > 0`. -/
def computePriceChangePct (current_price close_price : ℚ) : ℚ :=
  if close_price > 0 then ((current_price - close_price) / close_price) * 100
  else 0

/-- Opportunity classification, lines 135-158 of the source: the
`has_opportunity`/`recommended_action` pair starts at `(False, None)`, is
only updated when `self.config.symbols.get(symbol)` found a configuration,
and then follows the if/elif chain on the percent change (down move checked
first, thresholds strict at ±1.0). -/
def classify (symbol_config : Option SymbolConfig) (price_change_pct : ℚ) :
    Bool × Option Action :=
  match symbol_config with
  | none => (false, none)
  | some symbol_config =>
    if price_change_pct < -1 then
      if allow_red symbol_config then (true, some Action.PUT)
      else (false, none)
    else if price_change_pct > 1 then
      if allow_green symbol_config then (true, some Action.CALL)
      else (false, none)
    else (false, none)

/-- Embedding of `PremarketScanner.scan_symbol` (lines 90-176).
`symbols` is `self.config.symbols`; `qualified` is whether
`qualify_contracts` returned a non-empty list (line 107); `ticker` is the
result of `get_ticker_for_contract` (line 114), `none` when falsy.  A `none`
return models the `return None` paths (lines 109, 118, 176); the broad
`except` at line 174 is covered by those collaborator-failure inputs, since
the happy path performs only total arithmetic. -/
def scan_symbol (symbols : List (String × SymbolConfig)) (qualified : Bool)
    (ticker : Option Ticker) (symbol : String) : Option ScanResult :=
  if !qualified then
    none
  else
    match ticker with
    | none => none
    | some t =>
      let current_price : ℚ := t.marketPrice.getD 0
      let close_price : ℚ := t.close.getD 0
      let price_change_pct : ℚ := computePriceChangePct current_price close_price
      let volume : Int := t.volume.getD 0
      let classif : Bool × Option Action :=
        classify (symbols.lookup symbol) price_change_pct
      some
        { symbol := symbol
          current_price := current_price
          close_price := close_price
          price_change_pct := price_change_pct
          volume := volume
          has_opportunity := classif.1
          recommended_action := classif.2 }

/-- Terminal value of one gathered task, as produced by
`asyncio.gather(*tasks, return_exceptions=True)` (line 245): either a
captured exception object or the `Optional[Dict]` the task returned. -/
inductive TaskResult where
  | exn : TaskResult
  | res : Option ScanResult → TaskResult
deriving DecidableEq, Repr

/-- Mutable state owned by a `PremarketScanner` instance: the read-only
symbol configuration (`self.config.symbols`, insertion-ordered) and the
`self.scan_results` dict initialised empty in `__init__` (line 38). -/
structure ScannerState where
  symbols : List (String × SymbolConfig)
  scan_results : List (String × ScanResult)
deriving DecidableEq, Repr

/-- The ScanReport abstraction of `scan_all_symbols`'s observable outputs:
the returned dict plus the success/failure counters (lines 262-263) and the
window-gate values observed at the start and end checks.  `windowValidAtEnd`
is `none` on the early-return paths where the post-check of line 253 is never
evaluated. -/
structure ScanReport where
  results : List (String × ScanResult)
  successCount : Nat
  failureCount : Nat
  windowValidAtStart : Bool
  windowValidAtEnd : Option Bool
deriving DecidableEq, Repr

/-- Report returned by the early-exit paths of `scan_all_symbols` (the bare
`return {}` at lines 186, 194 and 218). -/
def emptyReport (windowValidAtStart : Bool) : ScanReport :=
  { results := []
    successCount := 0
    failureCount := 0
    windowValidAtStart := windowValidAtStart
    windowValidAtEnd := none }

/-- Collection loop of lines 261-276: each gathered value is counted as a
failure when it is an exception (line 268) or `None` (line 274), and as a
success that is inserted into the result dict otherwise (lines 271-273). -/
def processResults : List (String × TaskResult) →
    List (String × ScanResult) × Nat × Nat
  | [] => ([], 0, 0)
  | (_, TaskResult.exn) :: rest =>
    let acc := processResults rest
    (acc.1, acc.2.1, acc.2.2 + 1)
  | (_, TaskResult.res none) :: rest =>
    let acc := processResults rest
    (acc.1, acc.2.1, acc.2.2 + 1)
  | (symbol, TaskResult.res (some r)) :: rest =>
    let acc := processResults rest
    ((symbol, r) :: acc.1, acc.2.1 + 1, acc.2.2)

/-- Embedding of `PremarketScanner.scan_all_symbols` (lines 178-286).
`gatePre`, `gateStart` and `gatePost` are the values of
`is_premarket_hours()` at its three evaluation points (lines 184, 216, 253);
`taskResults` holds, per configured symbol in order, the terminal value of
that symbol's gathered task.  Returns the scanner state after the call
together with the report.  On the three early returns the state is untouched
and `{}` is returned; otherwise the collected results replace
`self.scan_results` wholesale (line 278), which also supersedes the
per-symbol writes done inside `scan_symbol` (line 171). -/
def scan_all_symbols (st : ScannerState) (gatePre gateStart gatePost : Bool)
    (taskResults : List TaskResult) : ScannerState × ScanReport :=
  if !gatePre then
    (st, emptyReport false)
  else if st.symbols.isEmpty then
    (st, emptyReport true)
  else if !gateStart then
    (st, emptyReport true)
  else
    let zipped := (st.symbols.map Prod.fst).zip taskResults
    let processed := processResults zipped
    ({ st with scan_results := processed.1 },
      { results := processed.1
        successCount := processed.2.1
        failureCount := processed.2.2
        windowValidAtStart := true
        windowValidAtEnd := some gatePost })

/-- Comparison used by the ranking sort: the Python key/reverse combination
`key=lambda x: abs(x.get("price_change_pct", 0)), reverse=True` (lines
343-345), i.e. `a` may precede `b` exactly when `|a| ≥ |b|`. -/
def opportunitySortLE (a b : ScanResult) : Bool :=
  decide (|b.price_change_pct| ≤ |a.price_change_pct|)

/-- Ranking shared by `get_top_opportunities` (lines 338-345) and
`get_opportunities_summary` (lines 306-313): filter the stored results on
`has_opportunity` and sort by absolute percent change descending.  Python's
`list.sort` is stable, which `List.mergeSort` models. -/
def rankOpportunities (scan_results : List (String × ScanResult)) :
    List ScanResult :=
  ((scan_results.map Prod.snd).filter (fun r => r.has_opportunity)).mergeSort
    opportunitySortLE

/-- Embedding of `PremarketScanner.get_top_opportunities` (lines 328-347):
the ranked opportunities truncated with the Python slice `[:limit]`. -/
def get_top_opportunities (scan_results : List (String × ScanResult))
    (limit : Nat) : List ScanResult :=
  (rankOpportunities scan_results).take limit

/-! Concrete fixtures used by witnesses and counterexamples. -/

/-- Symbol configuration with neither a `puts` nor a `calls` subtree: both
direction gates are unset and hence default to allowed. -/
def cfgDefault : SymbolConfig := { puts := none, calls := none }

/-- Ticker 2% below the previous close. -/
def tickerDown : Ticker :=
  { marketPrice := some 98, close := some 100, volume := some 1000 }

/-- Scan result produced for `tickerDown` under `cfgDefault`. -/
def resultDown : ScanResult :=
  { symbol := "AAPL"
    current_price := 98
    close_price := 100
    price_change_pct := -2
    volume := 1000
    has_opportunity := true
    recommended_action := some Action.PUT }

/-- Ticker whose `marketPrice` attribute is missing while `close` is 100. -/
def tickerNoPrice : Ticker :=
  { marketPrice := none, close := some 100, volume := some 0 }

/-- Scan result the source produces for `tickerNoPrice`: the missing price
defaults to 0, so the percent change computes to -100 and the down-move
branch fires. -/
def resultNoPrice : ScanResult :=
  { symbol := "AAPL"
    current_price := 0
    close_price := 100
    price_change_pct := -100
    volume := 0
    has_opportunity := true
    recommended_action := some Action.PUT }

/-- Opportunity on symbol ZZZ, down 2% (tie partner of `resultTieAAA`). -/
def resultTieZZZ : ScanResult :=
  { symbol := "ZZZ"
    current_price := 98
    close_price := 100
    price_change_pct := -2
    volume := 0
    has_opportunity := true
    recommended_action := some Action.PUT }

/-- Opportunity on symbol AAA, up 2%: same absolute percent change as
`resultTieZZZ` but lexically smaller symbol. -/
def resultTieAAA : ScanResult :=
  { symbol := "AAA"
    current_price := 102
    close_price := 100
    price_change_pct := 2
    volume := 0
    has_opportunity := true
    recommended_action := some Action.CALL }

/-! Helper lemmas. -/

/-- Characterisation of the classification chain for a configured symbol. -/
theorem classify_spec (c : SymbolConfig) (pct : ℚ) :
    ((classify (some c) pct).1 = true ↔
      (pct < -1 ∧ allow_red c = true) ∨ (pct > 1 ∧ allow_green c = true)) ∧
    ((classify (some c) pct).2 = some Action.PUT ↔
      pct < -1 ∧ allow_red c = true) ∧
    ((classify (some c) pct).2 = some Action.CALL ↔
      pct > 1 ∧ allow_green c = true) ∧
    ((classify (some c) pct).2 = none ↔ (classify (some c) pct).1 = false) := by
  unfold classify
  by_cases h1 : pct < -1
  · have h2 : ¬pct > 1 := by linarith
    by_cases hr : allow_red c <;> simp [h1, h2, hr]
  · by_cases h2 : pct > 1
    · by_cases hg : allow_green c <;> simp [h1, h2, hg]
    · simp [h1, h2]

/-- The collection loop counts every gathered value exactly once. -/
theorem processResults_counts (l : List (String × TaskResult)) :
    (processResults l).2.1 + (processResults l).2.2 = l.length := by
  induction l with
  | nil => rfl
  | cons hd tl ih =>
    obtain ⟨s, tr⟩ := hd
    cases tr with
    | exn => simp [processResults]; omega
    | res o =>
      cases o with
      | none => simp [processResults]; omega
      | some r => simp [processResults]; omega

/-- The collection loop keeps exactly the non-`None`, non-exception results,
keyed by their own symbol and in dispatch order. -/
theorem processResults_results (l : List (String × TaskResult)) :
    (processResults l).1 =
      l.filterMap (fun p =>
        match p.2 with
        | TaskResult.res (some r) => some (p.1, r)
        | _ => none) := by
  induction l with
  | nil => rfl
  | cons hd tl ih =>
    obtain ⟨s, tr⟩ := hd
    cases tr with
    | exn => simpa [processResults] using ih
    | res o =>
      cases o with
      | none => simpa [processResults] using ih
      | some r => simpa [processResults] using ih

/-- Unfolding lemma for the happy path of `scan_symbol`: a qualified
contract with a fetched ticker always produces a result record. -/
theorem scan_symbol_some (symbols : List (String × SymbolConfig))
    (symbol : String) (t : Ticker) :
    scan_symbol symbols true (some t) symbol = some
      { symbol := symbol
        current_price := t.marketPrice.getD 0
        close_price := t.close.getD 0
        price_change_pct := computePriceChangePct (t.marketPrice.getD 0) (t.close.getD 0)
        volume := t.volume.getD 0
        has_opportunity := (classify (symbols.lookup symbol)
          (computePriceChangePct (t.marketPrice.getD 0) (t.close.getD 0))).1
        recommended_action := (classify (symbols.lookup symbol)
          (computePriceChangePct (t.marketPrice.getD 0) (t.close.getD 0))).2 } := rfl

/-! Claim theorems. -/

/-- C1: for every scanned symbol for which a quote is obtained (the scan
flow only dispatches configured symbols, so the per-symbol configuration
lookup succeeds), the classification satisfies
`has_opportunity = (percentChange < -1 and allowRed) or
(percentChange > 1 and allowGreen)`, the direction gates default to allowed
when the corresponding configuration subtree is unset, and the recommended
action matches the sign of the move (PUT for the down branch, CALL for the
up branch, none otherwise). -/
theorem scan_symbol_classification (symbols : List (String × SymbolConfig))
    (symbol : String) (c : SymbolConfig) (t : Ticker)
    (hc : symbols.lookup symbol = some c) :
    ∃ r, scan_symbol symbols true (some t) symbol = some r ∧
      (r.has_opportunity = true ↔
        (r.price_change_pct < -1 ∧ allow_red c = true) ∨
        (r.price_change_pct > 1 ∧ allow_green c = true)) ∧
      (r.recommended_action = some Action.PUT ↔
        r.price_change_pct < -1 ∧ allow_red c = true) ∧
      (r.recommended_action = some Action.CALL ↔
        r.price_change_pct > 1 ∧ allow_green c = true) ∧
      (r.recommended_action = none ↔ r.has_opportunity = false) ∧
      (∀ cal : Option CallsConfig,
        allow_red { puts := none, calls := cal } = true) ∧
      (∀ cal : Option CallsConfig,
        allow_red { puts := some { write_when := none }, calls := cal } = true) ∧
      (∀ pu : Option PutsConfig,
        allow_green { puts := pu, calls := none } = true) ∧
      (∀ pu : Option PutsConfig,
        allow_green { puts := pu, calls := some { write_when := none } } = true) := by
  obtain ⟨hopp, hput, hcall, hnone⟩ :=
    classify_spec c (computePriceChangePct (t.marketPrice.getD 0) (t.close.getD 0))
  refine ⟨{ symbol := symbol
            current_price := t.marketPrice.getD 0
            close_price := t.close.getD 0
            price_change_pct := computePriceChangePct (t.marketPrice.getD 0) (t.close.getD 0)
            volume := t.volume.getD 0
            has_opportunity := (classify (some c)
              (computePriceChangePct (t.marketPrice.getD 0) (t.close.getD 0))).1
            recommended_action := (classify (some c)
              (computePriceChangePct (t.marketPrice.getD 0) (t.close.getD 0))).2 },
    ?_, hopp, hput, hcall, hnone,
    fun cal => rfl, fun cal => rfl, fun pu => rfl, fun pu => rfl⟩
  rw [scan_symbol_some, hc]

/-- Witness for C1 at a concrete input: AAPL configured with both gates
unset, quote 2% below the previous close. -/
theorem scan_symbol_classification_witness :
    ∃ r, scan_symbol [("AAPL", cfgDefault)] true (some tickerDown) "AAPL" = some r ∧
      (r.has_opportunity = true ↔
        (r.price_change_pct < -1 ∧ allow_red cfgDefault = true) ∨
        (r.price_change_pct > 1 ∧ allow_green cfgDefault = true)) ∧
      (r.recommended_action = some Action.PUT ↔
        r.price_change_pct < -1 ∧ allow_red cfgDefault = true) ∧
      (r.recommended_action = some Action.CALL ↔
        r.price_change_pct > 1 ∧ allow_green cfgDefault = true) ∧
      (r.recommended_action = none ↔ r.has_opportunity = false) ∧
      (∀ cal : Option CallsConfig,
        allow_red { puts := none, calls := cal } = true) ∧
      (∀ cal : Option CallsConfig,
        allow_red { puts := some { write_when := none }, calls := cal } = true) ∧
      (∀ pu : Option PutsConfig,
        allow_green { puts := pu, calls := none } = true) ∧
      (∀ pu : Option PutsConfig,
        allow_green { puts := pu, calls := some { write_when := none } } = true) :=
  scan_symbol_classification [("AAPL", cfgDefault)] "AAPL" cfgDefault tickerDown rfl

/-- C2: for every scan of a symbol whose quote is obtained, the percent
change equals `(currentPrice - previousClose) / previousClose * 100` when the
previous close is positive, and is 0 when the previous close is 0; the
computation is total, so no arithmetic fault can be raised. -/
theorem scan_symbol_price_change (symbols : List (String × SymbolConfig))
    (symbol : String) (t : Ticker) :
    ∃ r, scan_symbol symbols true (some t) symbol = some r ∧
      r.current_price = t.marketPrice.getD 0 ∧
      r.close_price = t.close.getD 0 ∧
      (0 < r.close_price →
        r.price_change_pct = (r.current_price - r.close_price) / r.close_price * 100) ∧
      (r.close_price = 0 → r.price_change_pct = 0) := by
  refine ⟨_, scan_symbol_some symbols symbol t, rfl, rfl, ?_, ?_⟩
  · intro h
    show computePriceChangePct (t.marketPrice.getD 0) (t.close.getD 0) = _
    rw [computePriceChangePct, if_pos h]
  · intro h
    show computePriceChangePct (t.marketPrice.getD 0) (t.close.getD 0) = 0
    rw [computePriceChangePct, if_neg]
    rw [show t.close.getD 0 = 0 from h]
    exact lt_irrefl 0

/-- Witness for C2 at a concrete input: previous close 100, current 98. -/
theorem scan_symbol_price_change_witness :
    ∃ r, scan_symbol [("AAPL", cfgDefault)] true (some tickerDown) "AAPL" = some r ∧
      r.current_price = tickerDown.marketPrice.getD 0 ∧
      r.close_price = tickerDown.close.getD 0 ∧
      (0 < r.close_price →
        r.price_change_pct = (r.current_price - r.close_price) / r.close_price * 100) ∧
      (r.close_price = 0 → r.price_change_pct = 0) :=
  scan_symbol_price_change [("AAPL", cfgDefault)] "AAPL" tickerDown

/-- C6 counterexample: a ticker whose `marketPrice` attribute is missing
while `close = 100` does not produce a Failure outcome as the claim
requires; `scan_symbol` defaults the price to 0 and returns a Success
record (which even computes a -100% move and flags a PUT opportunity). -/
theorem scan_symbol_missing_price_counterexample :
    scan_symbol [("AAPL", cfgDefault)] true (some tickerNoPrice) "AAPL" =
      some resultNoPrice := by
  norm_num [scan_symbol, computePriceChangePct, tickerNoPrice, cfgDefault,
    resultNoPrice, classify, allow_red, List.lookup]

/-- C6 amended: a quote fetch failure (falsy ticker) yields an absent
result for that symbol — never a crash and never a Success — and the
collection loop counts that absent result as one failure and zero
successes; a ticker that is present but lacks price fields instead yields a
Success outcome whose missing prices are defaulted to 0. -/
theorem scan_symbol_quote_handling (symbols : List (String × SymbolConfig))
    (symbol : String) (q : Bool) (t : Ticker) :
    scan_symbol symbols q none symbol = none ∧
    (∃ r, scan_symbol symbols true (some t) symbol = some r ∧
      r.current_price = t.marketPrice.getD 0 ∧
      r.close_price = t.close.getD 0) ∧
    (processResults [(symbol, TaskResult.res (scan_symbol symbols q none symbol))]).2.1 = 0 ∧
    (processResults [(symbol, TaskResult.res (scan_symbol symbols q none symbol))]).2.2 = 1 := by
  have hnone : scan_symbol symbols q none symbol = none := by
    cases q <;> rfl
  refine ⟨hnone, ⟨_, scan_symbol_some symbols symbol t, rfl, rfl⟩, ?_, ?_⟩ <;>
    · rw [hnone]
      rfl

/-- C10: a symbol with no entry in the per-symbol configuration mapping
always scans to `has_opportunity = false` with no recommended action, no
matter how large the percent change is. -/
theorem scan_symbol_unconfigured (symbols : List (String × SymbolConfig))
    (symbol : String) (t : Ticker) (h : symbols.lookup symbol = none) :
    ∃ r, scan_symbol symbols true (some t) symbol = some r ∧
      r.has_opportunity = false ∧ r.recommended_action = none := by
  refine ⟨_, scan_symbol_some symbols symbol t, ?_, ?_⟩ <;>
    simp [h, classify]

/-- Witness for C10: an unconfigured symbol scanned against a quote 2%
below the previous close still reports no opportunity. -/
theorem scan_symbol_unconfigured_witness :
    ∃ r, scan_symbol [] true (some tickerDown) "TSLA" = some r ∧
      r.has_opportunity = false ∧ r.recommended_action = none :=
  scan_symbol_unconfigured [] "TSLA" tickerDown rfl

/-- Scanner state with one configured symbol and no stored results. -/
def stateAAPL : ScannerState :=
  { symbols := [("AAPL", cfgDefault)], scan_results := [] }

/-- Unfolding lemma for the full run of `scan_all_symbols`: when all window
checks preceding the gather pass and at least one symbol is configured, the
collected results replace the stored ones and the report carries the counts
and both window flags. -/
theorem scan_all_symbols_run (st : ScannerState) (gatePost : Bool)
    (taskResults : List TaskResult) (he : st.symbols.isEmpty = false) :
    scan_all_symbols st true true gatePost taskResults =
      ({ st with scan_results :=
          (processResults ((st.symbols.map Prod.fst).zip taskResults)).1 },
        { results := (processResults ((st.symbols.map Prod.fst).zip taskResults)).1
          successCount := (processResults ((st.symbols.map Prod.fst).zip taskResults)).2.1
          failureCount := (processResults ((st.symbols.map Prod.fst).zip taskResults)).2.2
          windowValidAtStart := true
          windowValidAtEnd := some gatePost }) := by
  simp [scan_all_symbols, he]

/-- C3: for every scan performed with the window open, every gathered task
value — success, absent result or captured exception — is counted exactly
once, so the success and failure counters always sum to the number of
symbols requested, and the collected result map keeps exactly the
successful outcomes keyed by their own symbol, unaffected by failures of
other tasks. -/
theorem scan_all_symbols_counts (st : ScannerState) (gatePost : Bool)
    (taskResults : List TaskResult)
    (hlen : taskResults.length = st.symbols.length)
    (hne : st.symbols ≠ []) :
    (scan_all_symbols st true true gatePost taskResults).2.successCount +
      (scan_all_symbols st true true gatePost taskResults).2.failureCount =
      st.symbols.length ∧
    (scan_all_symbols st true true gatePost taskResults).2.results =
      ((st.symbols.map Prod.fst).zip taskResults).filterMap (fun p =>
        match p.2 with
        | TaskResult.res (some r) => some (p.1, r)
        | _ => none) := by
  have he : st.symbols.isEmpty = false := by
    cases h : st.symbols with
    | nil => exact absurd h hne
    | cons a l => rfl
  rw [scan_all_symbols_run st gatePost taskResults he]
  refine ⟨?_, processResults_results _⟩
  rw [processResults_counts, List.length_zip, List.length_map, hlen, min_self]

/-- Witness for C3: one configured symbol whose task raised an exception;
the counters still sum to the one symbol requested and the exception only
removes its own entry from the result map. -/
theorem scan_all_symbols_counts_witness :
    (scan_all_symbols stateAAPL true true true [TaskResult.exn]).2.successCount +
      (scan_all_symbols stateAAPL true true true [TaskResult.exn]).2.failureCount =
      stateAAPL.symbols.length ∧
    (scan_all_symbols stateAAPL true true true [TaskResult.exn]).2.results =
      ((stateAAPL.symbols.map Prod.fst).zip [TaskResult.exn]).filterMap (fun p =>
        match p.2 with
        | TaskResult.res (some r) => some (p.1, r)
        | _ => none) :=
  scan_all_symbols_counts stateAAPL true [TaskResult.exn] rfl (by simp [stateAAPL])

/-- C4: when the window gate reports closed at the pre-check, the scan
returns immediately with the all-zero report (`successCount = 0`,
`failureCount = 0`, `windowValidAtStart = false`), leaves the scanner state
untouched, and the outcome is independent of the would-be task results —
no per-symbol task is dispatched. -/
theorem scan_all_symbols_window_closed (st : ScannerState)
    (gateStart gatePost : Bool) (taskResults taskResultsB : List TaskResult) :
    scan_all_symbols st false gateStart gatePost taskResults = (st, emptyReport false) ∧
    (scan_all_symbols st false gateStart gatePost taskResults).2.results = [] ∧
    (scan_all_symbols st false gateStart gatePost taskResults).2.successCount = 0 ∧
    (scan_all_symbols st false gateStart gatePost taskResults).2.failureCount = 0 ∧
    (scan_all_symbols st false gateStart gatePost taskResults).2.windowValidAtStart = false ∧
    scan_all_symbols st false gateStart gatePost taskResults =
      scan_all_symbols st false gateStart gatePost taskResultsB :=
  ⟨rfl, rfl, rfl, rfl, rfl, rfl⟩

/-- C5: when the window is open at both checks before the gather but closed
at the post-check, the report still carries exactly the outcomes and counts
it would carry had the window stayed open, the replaced state is the same,
and the report is only marked with `windowValidAtEnd = false`. -/
theorem scan_all_symbols_window_closes_mid_scan (st : ScannerState)
    (taskResults : List TaskResult) (hne : st.symbols ≠ []) :
    (scan_all_symbols st true true false taskResults).2.results =
      (scan_all_symbols st true true true taskResults).2.results ∧
    (scan_all_symbols st true true false taskResults).2.successCount =
      (scan_all_symbols st true true true taskResults).2.successCount ∧
    (scan_all_symbols st true true false taskResults).2.failureCount =
      (scan_all_symbols st true true true taskResults).2.failureCount ∧
    (scan_all_symbols st true true false taskResults).2.windowValidAtEnd = some false ∧
    (scan_all_symbols st true true false taskResults).1 =
      (scan_all_symbols st true true true taskResults).1 := by
  have he : st.symbols.isEmpty = false := by
    cases h : st.symbols with
    | nil => exact absurd h hne
    | cons a l => rfl
  rw [scan_all_symbols_run st false taskResults he,
    scan_all_symbols_run st true taskResults he]
  exact ⟨rfl, rfl, rfl, rfl, rfl⟩

/-- Witness for C5: one configured symbol scanned successfully while the
window closes mid-scan; the collected outcome is still returned. -/
theorem scan_all_symbols_window_closes_mid_scan_witness :
    (scan_all_symbols stateAAPL true true false [TaskResult.res (some resultDown)]).2.results =
      (scan_all_symbols stateAAPL true true true [TaskResult.res (some resultDown)]).2.results ∧
    (scan_all_symbols stateAAPL true true false [TaskResult.res (some resultDown)]).2.successCount =
      (scan_all_symbols stateAAPL true true true [TaskResult.res (some resultDown)]).2.successCount ∧
    (scan_all_symbols stateAAPL true true false [TaskResult.res (some resultDown)]).2.failureCount =
      (scan_all_symbols stateAAPL true true true [TaskResult.res (some resultDown)]).2.failureCount ∧
    (scan_all_symbols stateAAPL true true false [TaskResult.res (some resultDown)]).2.windowValidAtEnd =
      some false ∧
    (scan_all_symbols stateAAPL true true false [TaskResult.res (some resultDown)]).1 =
      (scan_all_symbols stateAAPL true true true [TaskResult.res (some resultDown)]).1 :=
  scan_all_symbols_window_closes_mid_scan stateAAPL [TaskResult.res (some resultDown)]
    (by simp [stateAAPL])

/-- C9 counterexample: a full scan of one configured symbol leaves the
scanner instance mutated — `self.scan_results` changed from empty to the
collected result map — so the returned report is not the only observable
effect and scan data does survive the call. -/
theorem scan_all_symbols_mutation_counterexample :
    (scan_all_symbols stateAAPL true true true
        [TaskResult.res (some resultDown)]).1.scan_results ≠
      stateAAPL.scan_results := by
  simp [scan_all_symbols, stateAAPL, processResults]

/-- C9 amended: the only per-instance state `scan_all_symbols` mutates is
`self.scan_results`, which is overwritten with the collected result map
exactly when all pre-gather window checks pass and at least one symbol is
configured, and is left untouched on every early-return path; the
configuration is never mutated.  The stored results persist after the call
(they feed the later ranking and summary reads). -/
theorem scan_all_symbols_state_effect (st : ScannerState)
    (gatePre gateStart gatePost : Bool) (taskResults : List TaskResult) :
    (scan_all_symbols st gatePre gateStart gatePost taskResults).1.symbols = st.symbols ∧
    (scan_all_symbols st gatePre gateStart gatePost taskResults).1.scan_results =
      (if (gatePre && !st.symbols.isEmpty && gateStart) = true
       then (scan_all_symbols st gatePre gateStart gatePost taskResults).2.results
       else st.scan_results) := by
  cases gatePre <;> cases gateStart <;> cases h : st.symbols <;>
    simp [scan_all_symbols, h]

/-- Transitivity of the ranking comparison. -/
theorem opportunitySortLE_trans (a b c : ScanResult)
    (hab : opportunitySortLE a b) (hbc : opportunitySortLE b c) :
    opportunitySortLE a c := by
  simp only [opportunitySortLE, decide_eq_true_eq] at *
  exact le_trans hbc hab

/-- Totality of the ranking comparison. -/
theorem opportunitySortLE_total (a b : ScanResult) :
    opportunitySortLE a b || opportunitySortLE b a := by
  simp only [opportunitySortLE, Bool.or_eq_true, decide_eq_true_eq]
  exact le_total _ _

/-- C7 counterexample: two opportunities with the same absolute percent
change, stored in non-lexical insertion order (ZZZ before AAA).  The sort
is stable, so the code returns them in insertion order [ZZZ, AAA], while
the claim's lexical tie-break would require [AAA, ZZZ]; the two outcomes
differ, so the orders are distinct. -/
theorem rank_tie_break_counterexample :
    rankOpportunities [("ZZZ", resultTieZZZ), ("AAA", resultTieAAA)] =
      [resultTieZZZ, resultTieAAA] ∧
    |resultTieZZZ.price_change_pct| = |resultTieAAA.price_change_pct| ∧
    resultTieAAA.symbol < resultTieZZZ.symbol ∧
    resultTieZZZ ≠ resultTieAAA := by
  refine ⟨?_, by norm_num [resultTieZZZ, resultTieAAA],
    by simp [resultTieZZZ, resultTieAAA]; decide, by decide⟩
  unfold rankOpportunities
  have hfilter :
      (([("ZZZ", resultTieZZZ), ("AAA", resultTieAAA)].map Prod.snd).filter
        (fun r => r.has_opportunity)) = [resultTieZZZ, resultTieAAA] := by
    simp [resultTieZZZ, resultTieAAA]
  rw [hfilter]
  apply List.mergeSort_of_sorted
  norm_num [List.pairwise_cons, opportunitySortLE, resultTieZZZ, resultTieAAA]

/-- C7 amended: the ranking returns exactly the stored outcomes with
`has_opportunity = true`, sorted by absolute percent change descending;
ties between equal magnitudes are broken by the insertion order of the
stored results (the sort is stable), not by lexical symbol order. -/
theorem rank_sorted_stable (scan_results : List (String × ScanResult)) :
    (rankOpportunities scan_results).Perm
      ((scan_results.map Prod.snd).filter (fun r => r.has_opportunity)) ∧
    (rankOpportunities scan_results).Pairwise
      (fun a b => |b.price_change_pct| ≤ |a.price_change_pct|) ∧
    (∀ a b : ScanResult, |b.price_change_pct| ≤ |a.price_change_pct| →
      [a, b].Sublist ((scan_results.map Prod.snd).filter (fun r => r.has_opportunity)) →
      [a, b].Sublist (rankOpportunities scan_results)) := by
  refine ⟨List.mergeSort_perm _ _, ?_, ?_⟩
  · exact (List.sorted_mergeSort opportunitySortLE_trans opportunitySortLE_total
      ((scan_results.map Prod.snd).filter (fun r => r.has_opportunity))).imp
      (fun hab => by simpa [opportunitySortLE] using hab)
  · intro a b hab hsub
    exact List.pair_sublist_mergeSort opportunitySortLE_trans opportunitySortLE_total
      (by simpa [opportunitySortLE] using hab) hsub

/-- Witness for C7 at a concrete input: the tie fixtures in insertion
order. -/
theorem rank_sorted_stable_witness :
    (rankOpportunities [("ZZZ", resultTieZZZ), ("AAA", resultTieAAA)]).Perm
      (([("ZZZ", resultTieZZZ), ("AAA", resultTieAAA)].map Prod.snd).filter
        (fun r => r.has_opportunity)) ∧
    (rankOpportunities [("ZZZ", resultTieZZZ), ("AAA", resultTieAAA)]).Pairwise
      (fun a b => |b.price_change_pct| ≤ |a.price_change_pct|) ∧
    (∀ a b : ScanResult, |b.price_change_pct| ≤ |a.price_change_pct| →
      [a, b].Sublist (([("ZZZ", resultTieZZZ), ("AAA", resultTieAAA)].map Prod.snd).filter
        (fun r => r.has_opportunity)) →
      [a, b].Sublist (rankOpportunities [("ZZZ", resultTieZZZ), ("AAA", resultTieAAA)])) :=
  rank_sorted_stable [("ZZZ", resultTieZZZ), ("AAA", resultTieAAA)]

/-- C8: `get_top_opportunities` is the first `limit` elements of the
ranked sequence; its length is `min limit count`, and a limit exceeding the
number of available opportunities returns the whole ranked sequence — the
truncation is total, so no error can be raised. -/
theorem get_top_opportunities_take (scan_results : List (String × ScanResult))
    (limit : Nat) :
    get_top_opportunities scan_results limit =
      (rankOpportunities scan_results).take limit ∧
    (get_top_opportunities scan_results limit).length =
      min limit (rankOpportunities scan_results).length ∧
    ((rankOpportunities scan_results).length ≤ limit →
      get_top_opportunities scan_results limit = rankOpportunities scan_results) :=
  ⟨rfl, by simp [get_top_opportunities], fun h => List.take_of_length_le h⟩

/-- Witness for C8: a limit of 10 against a single stored opportunity
returns that one opportunity. -/
theorem get_top_opportunities_take_witness :
    get_top_opportunities [("ZZZ", resultTieZZZ)] 10 =
      (rankOpportunities [("ZZZ", resultTieZZZ)]).take 10 ∧
    (get_top_opportunities [("ZZZ", resultTieZZZ)] 10).length =
      min 10 (rankOpportunities [("ZZZ", resultTieZZZ)]).length ∧
    ((rankOpportunities [("ZZZ", resultTieZZZ)]).length ≤ 10 →
      get_top_opportunities [("ZZZ", resultTieZZZ)] 10 =
        rankOpportunities [("ZZZ", resultTieZZZ)]) :=
  get_top_opportunities_take [("ZZZ", resultTieZZZ)] 10

end PremarketScanner
